import Mathlib

/-!
Shallow embedding of `MockLocalChannel.RunScript` from
`channel/local_mock.go` of chaosblade-spec-go, together with the
auxiliary response-construction helpers it calls.  External effects
(filesystem probes, subprocess execution, the JSON decoder) are modelled
as an explicit environment record, and the side effects performed by an
invocation are returned as an explicit trace.
-/

namespace ChaosBlade

/-- Modelled from the spec: stable status codes of the error taxonomy
(`CommandIllegal`, `ChaosbladeFileNotFound`, `FileNotExist`,
`OsCmdExecFailed`, `ResultUnmarshalFailed`), plus the success code and an
escape constructor for any other code a decoded payload may carry.  The
concrete numeric values live in the `spec` package, outside the given
sources; only identity and distinctness of codes matter here. -/
inductive RespCode where
  | ok
  | commandIllegal
  | chaosbladeFileNotFound
  | fileNotExist
  | osCmdExecFailed
  | resultUnmarshalFailed
  | other (n : Nat)
deriving DecidableEq

/-- Modelled from the spec: the Response wire shape
`{code: int, success: bool, result: string|null, err: string|null}`. -/
structure Response where
  code : RespCode
  success : Bool
  result : Option String
  err : Option String
deriving DecidableEq

/-- Modelled from the spec: `spec.ReturnSuccess` synthesizes a success
Response carrying the given value as its result payload. -/
def ReturnSuccess (r : String) : Response :=
  { code := RespCode.ok, success := true, result := some r, err := none }

/-- Modelled from the spec: `spec.ResponseFailWithFlags` synthesizes a
failure Response with the given code and a human-readable message
embedding the given flag values (here: their space-separated
concatenation). -/
def ResponseFailWithFlags (c : RespCode) (flags : List String) : Response :=
  { code := c, success := false, result := none,
    err := some (String.intercalate " " flags) }

/-- Modelled from the spec: the printed description of an invoked command
(the helper binary followed by its arguments), as passed to
`ResponseFailWithFlags` when a subprocess fails. -/
def cmdDescription (bin : String) (cargs : List String) : String :=
  String.intercalate " " (bin :: cargs)

/-- The execution context of a `RunScript` call, projected to the four
context keys the function reads: `NSTargetFlagName` (the target pid value;
`none` models a nil context value, `some s` models any non-nil value with
`s` its `%s` formatting), and whether each of `NSPidFlagName`,
`NSMntFlagName`, `NSNetFlagName` carries the `spec.True` value. -/
structure Ctx where
  nsTarget : Option String
  nsPid : Bool
  nsMnt : Bool
  nsNet : Bool

/-- One observable side effect of an invocation, in order of occurrence:
an `UnTar` extraction, an `os.Stat` probe, or a subprocess launched via
`exec.CommandContext` with the given binary and argument list. -/
inductive Effect where
  | unTar (src dst : String)
  | stat (p : String)
  | exec (bin : String) (cargs : List String)
deriving DecidableEq

/-- The environment of one invocation: results of every external call
`RunScript` makes.  `isBladeCommand` and `isExist` model the package
format/presence checks; `dir` models the stdlib `filepath.Dir`;
`nowNano` is `time.Now().UnixNano()`; `unTarResult` is the (discarded)
return value of `UnTar`; `mainStatNotExist` is
`os.IsNotExist(err)` for the `os.Stat` of the staged `main` file and
`statErrMsg` that error's text; `chmodOutput`/`chmodErr` and
`runOutput`/`runErr` are the `CombinedOutput` results of the two
subprocesses; `decode` models `spec.Decode`; `goos` is `runtime.GOOS`;
`nsExecBin` is the resolved path of the namespace-entry helper binary
(`path.Join` of the program path, `spec.BinPath` and `spec.NSExecBin`). -/
structure Env where
  isBladeCommand : String → Bool
  isExist : String → Bool
  dir : String → String
  nowNano : Nat
  unTarResult : Option String
  mainStatNotExist : Bool
  statErrMsg : String
  chmodOutput : String
  chmodErr : Option String
  runOutput : String
  runErr : Option String
  decode : String → Response
  goos : String
  nsExecBin : String

/-- Splits a character list at every occurrence of the character `c`,
keeping empty pieces, as Go `strings.Split` does for a one-character
separator. -/
def splitCh (c : Char) : List Char → List (List Char)
  | [] => [[]]
  | x :: xs =>
    if x = c then [] :: splitCh c xs
    else
      match splitCh c xs with
      | [] => [[x]]
      | y :: ys => (x :: y) :: ys

/-- Go `strings.Split(s, " ")`: split on every single space, keeping
empty fields. -/
def goSplitSpace (s : String) : List String :=
  (splitCh ' ' s.data).map String.mk

/-- Whether a character is whitespace in the sense of Go
`unicode.IsSpace` restricted to ASCII. -/
def isSpaceCh (c : Char) : Bool :=
  c = ' ' || c = '\t' || c = '\n' || c = '\r' || c = '\x0b' || c = '\x0c'

/-- Go `strings.TrimSpace`: drop leading and trailing whitespace. -/
def goTrimSpace (s : String) : String :=
  String.mk (((s.data.dropWhile isSpaceCh).reverse.dropWhile isSpaceCh).reverse)

/-- Namespace flag composition, lines 122-134 of `local_mock.go`:
`ns_script := fmt.Sprintf("-t %s", pid)` followed by conditional
appends of `" -p"`, `" -m"`, `" -n"` in that fixed order. -/
def nsFlags (pid : String) (p m n : Bool) : String :=
  let s0 := "-t " ++ pid
  let s1 := if p then s0 ++ " -p" else s0
  let s2 := if m then s1 ++ " -m" else s1
  if n then s2 ++ " -n" else s2

/-- The staging directory, line 145: `filepath.Dir(script) + "/" +
fmt.Sprintf("%d", time.Now().UnixNano())`. -/
def tarDistDir (env : Env) (script : String) : String :=
  env.dir script ++ "/" ++ toString env.nowNano

/-- The staged entry point, line 148: `tarDistDir + "/main"`. -/
def scriptMainOf (env : Env) (script : String) : String :=
  tarDistDir env script ++ "/main"

/-- The recording wrapper, lines 173-191: wraps the entry point in a
`script` terminal-recording invocation, redirecting timing data to
`/tmp/<uid>.time` and transcript data to `/tmp/<uid>.out`, with a
flags-direct form when `runtime.GOOS == "darwin"` and a quoted `-c`
sub-command form otherwise; the original arguments are appended when
non-empty. -/
def wrapCommand (goos uid scriptMain args : String) : String :=
  let time := "/tmp/" ++ uid ++ ".time"
  let out := "/tmp/" ++ uid ++ ".out"
  if goos == "darwin" then
    let sm := "script  -t 2>" ++ time ++ " -a " ++ out ++ " " ++ scriptMain
    if args != "" then sm ++ " " ++ args else sm
  else
    let sm := "script  -t 2>" ++ time ++ " -a " ++ out ++ "  -c  " ++ "\"" ++ scriptMain
    (if args != "" then sm ++ " " ++ args else sm) ++ "\""

/-- `MockLocalChannel.RunScript`, lines 116-211 of `local_mock.go`,
returning the Response together with the ordered trace of side effects
(extraction, stat probe, subprocess launches) the invocation performed. -/
def runScript (ctx : Ctx) (script args uid : String) (env : Env) :
    Response × List Effect :=
  match ctx.nsTarget with
  | none => (ResponseFailWithFlags RespCode.commandIllegal [script], [])
  | some pid =>
    let ns0 := nsFlags pid ctx.nsPid ctx.nsMnt ctx.nsNet
    if env.isBladeCommand script && !env.isExist script then
      (ResponseFailWithFlags RespCode.chaosbladeFileNotFound [script], [])
    else
      let distDir := tarDistDir env script
      let scriptMain := scriptMainOf env script
      let effs0 := [Effect.unTar script distDir, Effect.stat scriptMain]
      if env.mainStatNotExist then
        (ResponseFailWithFlags RespCode.fileNotExist
          [" script files must contain main file " ++ env.statErrMsg], effs0)
      else
        let nsScript := ns0 ++ " -- /bin/sh -c"
        let bin := env.nsExecBin
        let chmodArgs := ["chmod 777 " ++ scriptMain]
        let effs1 := effs0 ++ [Effect.exec bin chmodArgs]
        match env.chmodErr with
        | some e =>
          (ResponseFailWithFlags RespCode.osCmdExecFailed
            [cmdDescription bin chmodArgs, env.chmodOutput ++ " " ++ e], effs1)
        | none =>
          let wrapped := wrapCommand env.goos uid scriptMain args
          let mainArgs := goSplitSpace nsScript ++ [wrapped]
          let effs2 := effs1 ++ [Effect.exec bin mainArgs]
          let outMsg := env.runOutput
          let resp := env.decode outMsg
          if goTrimSpace outMsg != "" && resp.code != RespCode.resultUnmarshalFailed then
            (resp, effs2)
          else
            match env.runErr with
            | none => (ReturnSuccess outMsg, effs2)
            | some e =>
              (ResponseFailWithFlags RespCode.osCmdExecFailed
                [cmdDescription bin mainArgs, outMsg ++ " " ++ e], effs2)

/-- A concrete environment in which every stage succeeds: the package is
not a blade command (so the presence check passes), the staged `main`
exists, both subprocesses succeed, and the output decodes to a structured
success payload. -/
def happyEnv : Env :=
  { isBladeCommand := fun _ => false
    isExist := fun _ => true
    dir := fun _ => "/tmp"
    nowNano := 42
    unTarResult := none
    mainStatNotExist := false
    statErrMsg := ""
    chmodOutput := ""
    chmodErr := none
    runOutput := "structured"
    runErr := none
    decode := fun _ =>
      { code := RespCode.ok, success := true, result := some "payload", err := none }
    goos := "linux"
    nsExecBin := "/opt/chaosblade/bin/nsexec" }

/-- A concrete context carrying pid `1234` and requesting the mount and
network namespaces. -/
def mntNetCtx : Ctx :=
  { nsTarget := some "1234", nsPid := false, nsMnt := true, nsNet := true }

/-- Sanity evaluation: on the all-successful environment the decoded
payload is returned. -/
theorem happyEnv_run_decodes :
    (runScript mntNetCtx "/tmp/pkg.tar" "" "uid1" happyEnv).1 =
      happyEnv.decode "structured" := by decide

/-- Sanity evaluation: the full effect trace of the concrete scenario of
the spec (pid `1234`, namespaces {mount, network}). -/
theorem happyEnv_run_trace :
    (runScript mntNetCtx "/tmp/pkg.tar" "" "uid1" happyEnv).2 =
      [Effect.unTar "/tmp/pkg.tar" "/tmp/42",
       Effect.stat "/tmp/42/main",
       Effect.exec "/opt/chaosblade/bin/nsexec" ["chmod 777 /tmp/42/main"],
       Effect.exec "/opt/chaosblade/bin/nsexec"
         (["-t", "1234", "-m", "-n", "--", "/bin/sh", "-c"] ++
          ["script  -t 2>/tmp/uid1.time -a /tmp/uid1.out  -c  \"/tmp/42/main\""])] := by
  decide

/-- Intercalating a one-element list yields that element. -/
theorem intercalate_single (s x : String) : String.intercalate s [x] = x :=
  rfl

/-- A context whose target-pid key is absent. -/
def noPidCtx : Ctx :=
  { nsTarget := none, nsPid := false, nsMnt := false, nsNet := false }

/-- An environment whose package is a blade command that does not exist
on disk, so the format/presence validation fails. -/
def bladeMissingEnv : Env :=
  { happyEnv with isBladeCommand := fun _ => true, isExist := fun _ => false }

/-- An environment whose staged package lacks the `main` entry point. -/
def noMainEnv : Env :=
  { happyEnv with
    mainStatNotExist := true
    statErrMsg := "stat /tmp/42/main: no such file or directory" }

/-- An environment whose subprocess emits undecodable output: the decoder
yields the `ResultUnmarshalFailed` sentinel. -/
def plainOutputEnv : Env :=
  { happyEnv with
    runOutput := "hello"
    decode := fun _ =>
      { code := RespCode.resultUnmarshalFailed, success := false,
        result := none, err := some "unmarshal failed" } }

/-- An environment whose subprocess reports an error yet still emits a
decodable structured payload. -/
def errButDecodableEnv : Env :=
  { happyEnv with runErr := some "exit status 1" }

/-- Claim C3: a request whose execution context carries no target pid value is
rejected with `CommandIllegal`, and the effect trace is empty: no
extraction, no stat probe and no subprocess occurs. -/
theorem missing_pid_rejected
    (ctx : Ctx) (script args uid : String) (env : Env)
    (h : ctx.nsTarget = none) :
    runScript ctx script args uid env =
      (ResponseFailWithFlags RespCode.commandIllegal [script], []) := by
  simp [runScript, h]

/-- Witness for C3 at a concrete context with the pid key absent. -/
theorem missing_pid_rejected_witness :
    noPidCtx.nsTarget = none ∧
    runScript noPidCtx "/tmp/pkg.tar" "" "uid1" happyEnv =
      (ResponseFailWithFlags RespCode.commandIllegal ["/tmp/pkg.tar"], []) :=
  ⟨rfl, missing_pid_rejected noPidCtx "/tmp/pkg.tar" "" "uid1" happyEnv rfl⟩

/-- Claim C5: a package that is a blade command but fails the presence check is
rejected with `ChaosbladeFileNotFound`, and the effect trace is empty, so
extraction is not attempted. -/
theorem unrecognized_package_not_extracted
    (ctx : Ctx) (script args uid pid : String) (env : Env)
    (hpid : ctx.nsTarget = some pid)
    (hblade : env.isBladeCommand script = true)
    (hexist : env.isExist script = false) :
    runScript ctx script args uid env =
      (ResponseFailWithFlags RespCode.chaosbladeFileNotFound [script], []) := by
  simp [runScript, hpid, hblade, hexist]

/-- Witness for C5 at a concrete blade-command package missing on disk. -/
theorem unrecognized_package_not_extracted_witness :
    mntNetCtx.nsTarget = some "1234" ∧
    bladeMissingEnv.isBladeCommand "/opt/blade" = true ∧
    bladeMissingEnv.isExist "/opt/blade" = false ∧
    runScript mntNetCtx "/opt/blade" "" "uid1" bladeMissingEnv =
      (ResponseFailWithFlags RespCode.chaosbladeFileNotFound ["/opt/blade"], []) :=
  ⟨rfl, rfl, rfl,
    unrecognized_package_not_extracted mntNetCtx "/opt/blade" "" "uid1" "1234"
      bladeMissingEnv rfl rfl rfl⟩

/-- Claim C6: a package extracted into the staging directory with no `main`
file directly under it yields a `FileNotExist` failure whose message is
the fixed text followed by the underlying filesystem error text (so the
message contains that error text); by then exactly the extraction and the
stat probe have happened. -/
theorem missing_main_file_not_exist
    (ctx : Ctx) (script args uid pid : String) (env : Env)
    (hpid : ctx.nsTarget = some pid)
    (hpkg : (env.isBladeCommand script && !env.isExist script) = false)
    (hstat : env.mainStatNotExist = true) :
    runScript ctx script args uid env =
      (ResponseFailWithFlags RespCode.fileNotExist
        [" script files must contain main file " ++ env.statErrMsg],
       [Effect.unTar script (tarDistDir env script),
        Effect.stat (scriptMainOf env script)]) ∧
    (runScript ctx script args uid env).1.err =
      some (" script files must contain main file " ++ env.statErrMsg) := by
  constructor <;>
    simp [runScript, hpid, hpkg, hstat, ResponseFailWithFlags, intercalate_single]

/-- Witness for C6 at a concrete staged package lacking `main`. -/
theorem missing_main_file_not_exist_witness :
    mntNetCtx.nsTarget = some "1234" ∧
    (noMainEnv.isBladeCommand "/tmp/pkg.tar" && !noMainEnv.isExist "/tmp/pkg.tar") = false ∧
    noMainEnv.mainStatNotExist = true ∧
    (runScript mntNetCtx "/tmp/pkg.tar" "" "uid1" noMainEnv).1.err =
      some " script files must contain main file stat /tmp/42/main: no such file or directory" :=
  ⟨rfl, rfl, rfl,
    (missing_main_file_not_exist mntNetCtx "/tmp/pkg.tar" "" "uid1" "1234"
      noMainEnv rfl rfl rfl).2⟩

/-- Claim C1: when the run reaches the final subprocess and its combined output
is non-empty after trimming whitespace, and the decoded payload's code
differs from the `ResultUnmarshalFailed` sentinel, `RunScript` returns
the decoded Response verbatim — regardless of `env.runErr`, i.e. taking
precedence over the executor's own error verdict. -/
theorem decoded_payload_returned_verbatim
    (ctx : Ctx) (script args uid pid : String) (env : Env)
    (hpid : ctx.nsTarget = some pid)
    (hpkg : (env.isBladeCommand script && !env.isExist script) = false)
    (hstat : env.mainStatNotExist = false)
    (hchmod : env.chmodErr = none)
    (htrim : goTrimSpace env.runOutput ≠ "")
    (hcode : (env.decode env.runOutput).code ≠ RespCode.resultUnmarshalFailed) :
    (runScript ctx script args uid env).1 = env.decode env.runOutput := by
  simp [runScript, hpid, hpkg, hstat, hchmod, htrim, hcode]

/-- Witness for C1: the subprocess reports an error, yet the decoded
structured payload is returned verbatim. -/
theorem decoded_payload_returned_verbatim_witness :
    mntNetCtx.nsTarget = some "1234" ∧
    errButDecodableEnv.runErr = some "exit status 1" ∧
    (runScript mntNetCtx "/tmp/pkg.tar" "" "uid1" errButDecodableEnv).1 =
      errButDecodableEnv.decode errButDecodableEnv.runOutput :=
  ⟨rfl, rfl,
    decoded_payload_returned_verbatim mntNetCtx "/tmp/pkg.tar" "" "uid1" "1234"
      errButDecodableEnv rfl rfl rfl rfl (by decide) (by decide)⟩

/-- Claim C2: when the run reaches the final subprocess and its output is empty
after trimming or decodes to the `ResultUnmarshalFailed` sentinel, the
result is: a success Response carrying the raw output as payload when the
subprocess reported no error, and otherwise an `OsCmdExecFailed` failure
carrying the invoked command description and the raw output concatenated
with the error text. -/
theorem undecodable_output_fallback
    (ctx : Ctx) (script args uid pid : String) (env : Env)
    (hpid : ctx.nsTarget = some pid)
    (hpkg : (env.isBladeCommand script && !env.isExist script) = false)
    (hstat : env.mainStatNotExist = false)
    (hchmod : env.chmodErr = none)
    (hdec : (goTrimSpace env.runOutput != "" &&
      (env.decode env.runOutput).code != RespCode.resultUnmarshalFailed) = false) :
    (env.runErr = none →
      (runScript ctx script args uid env).1 = ReturnSuccess env.runOutput) ∧
    (∀ e, env.runErr = some e →
      (runScript ctx script args uid env).1 =
        ResponseFailWithFlags RespCode.osCmdExecFailed
          [cmdDescription env.nsExecBin
            (goSplitSpace (nsFlags pid ctx.nsPid ctx.nsMnt ctx.nsNet ++ " -- /bin/sh -c") ++
             [wrapCommand env.goos uid (scriptMainOf env script) args]),
           env.runOutput ++ " " ++ e]) := by
  constructor
  · intro hr
    simp [runScript, hpid, hpkg, hstat, hchmod, hdec, hr]
  · intro e hr
    simp [runScript, hpid, hpkg, hstat, hchmod, hdec, hr]

/-- Witness for C2: undecodable output with no subprocess error yields a
success Response carrying the raw output. -/
theorem undecodable_output_fallback_witness :
    mntNetCtx.nsTarget = some "1234" ∧
    plainOutputEnv.runErr = none ∧
    (runScript mntNetCtx "/tmp/pkg.tar" "" "uid1" plainOutputEnv).1 =
      ReturnSuccess "hello" :=
  ⟨rfl, rfl,
    (undecodable_output_fallback mntNetCtx "/tmp/pkg.tar" "" "uid1" "1234"
      plainOutputEnv rfl rfl rfl rfl (by decide)).1 rfl⟩

/-- Claim C4: namespace flag composition is deterministic and order-fixed: the
result is always `-t <pid>` followed by ` -p`, ` -m`, ` -n` in that fixed
order, each present exactly when the corresponding flag is set; in
particular requesting mount and network yields `-t <pid> -m -n`, and at a
concrete pid this differs from `-t <pid> -n -m`. -/
theorem nsFlags_order_fixed :
    (∀ (pid : String) (p m n : Bool),
      nsFlags pid p m n =
        "-t " ++ pid ++ (if p then " -p" else "") ++
          (if m then " -m" else "") ++ (if n then " -n" else "")) ∧
    (∀ pid : String, nsFlags pid false true true = "-t " ++ pid ++ " -m" ++ " -n") ∧
    nsFlags "1234" false true true = "-t 1234 -m -n" ∧
    nsFlags "1234" false true true ≠ "-t 1234 -n -m" := by
  refine ⟨fun pid p m n => ?_, fun pid => ?_, by decide, by decide⟩
  · cases p <;> cases m <;> cases n <;> simp [nsFlags, String.append_assoc]
  · simp [nsFlags, String.append_assoc]

/-- C8: the recording wrapper is pure string construction: on the Darwin
family it emits the flags-direct form
`script  -t 2>/tmp/<uid>.time -a /tmp/<uid>.out <entry> [args]`, and on
every other family the quoted `-c` sub-command form
`script  -t 2>/tmp/<uid>.time -a /tmp/<uid>.out  -c  "<entry> [args]"`,
with the trailing arguments embedded exactly when non-empty. -/
theorem wrapCommand_two_syntaxes :
    (∀ uid scriptMain args : String,
      wrapCommand "darwin" uid scriptMain args =
        "script  -t 2>/tmp/" ++ uid ++ ".time -a /tmp/" ++ uid ++ ".out " ++
          scriptMain ++ (if args != "" then " " ++ args else "")) ∧
    (∀ goos uid scriptMain args : String, goos ≠ "darwin" →
      wrapCommand goos uid scriptMain args =
        "script  -t 2>/tmp/" ++ uid ++ ".time -a /tmp/" ++ uid ++ ".out  -c  \"" ++
          scriptMain ++ (if args != "" then " " ++ args else "") ++ "\"") := by
  constructor
  · intro uid scriptMain args
    rcases eq_or_ne args "" with h | h <;>
      simp [wrapCommand, h, String.append_assoc] <;> rfl
  · intro goos uid scriptMain args hg
    rcases eq_or_ne args "" with h | h <;>
      simp [wrapCommand, h, hg, String.append_assoc] <;> rfl

/-- Witness for C8: both syntaxes at concrete inputs, the GNU-style
branch taken on a non-Darwin family. -/
theorem wrapCommand_two_syntaxes_witness :
    wrapCommand "darwin" "uid1" "/tmp/42/main" "arg1" =
      "script  -t 2>/tmp/uid1.time -a /tmp/uid1.out /tmp/42/main arg1" ∧
    wrapCommand "linux" "uid1" "/tmp/42/main" "arg1" =
      "script  -t 2>/tmp/uid1.time -a /tmp/uid1.out  -c  \"/tmp/42/main arg1\"" :=
  ⟨wrapCommand_two_syntaxes.1 "uid1" "/tmp/42/main" "arg1",
   wrapCommand_two_syntaxes.2 "linux" "uid1" "/tmp/42/main" "arg1" (by decide)⟩

/-- An environment whose chmod subprocess fails. -/
def chmodFailEnv : Env :=
  { happyEnv with
    chmodOutput := "chmod: operation not permitted"
    chmodErr := some "exit status 1" }

/-- Helper: under the reach conditions up to the stat probe, the third
trace entry is the chmod subprocess, whose argument list is the single
string `chmod 777 <entry>`. -/
theorem runScript_chmod_effect
    (ctx : Ctx) (script args uid pid : String) (env : Env)
    (hpid : ctx.nsTarget = some pid)
    (hpkg : (env.isBladeCommand script && !env.isExist script) = false)
    (hstat : env.mainStatNotExist = false) :
    ((runScript ctx script args uid env).2)[2]? =
      some (Effect.exec env.nsExecBin ["chmod 777 " ++ scriptMainOf env script]) := by
  simp only [runScript, hpid, hpkg, hstat]
  cases hc : env.chmodErr <;> cases hr : env.runErr <;>
    simp [hc, hr, apply_ite Prod.snd]

/-- Helper: when every stage up to and including chmod succeeds, the
trace is exactly extraction, stat probe, chmod subprocess and the main
subprocess carrying the split namespace flags plus the wrapped command. -/
theorem runScript_trace_reached
    (ctx : Ctx) (script args uid pid : String) (env : Env)
    (hpid : ctx.nsTarget = some pid)
    (hpkg : (env.isBladeCommand script && !env.isExist script) = false)
    (hstat : env.mainStatNotExist = false)
    (hchmod : env.chmodErr = none) :
    (runScript ctx script args uid env).2 =
      [Effect.unTar script (tarDistDir env script),
       Effect.stat (scriptMainOf env script),
       Effect.exec env.nsExecBin ["chmod 777 " ++ scriptMainOf env script],
       Effect.exec env.nsExecBin
         (goSplitSpace (nsFlags pid ctx.nsPid ctx.nsMnt ctx.nsNet ++ " -- /bin/sh -c") ++
          [wrapCommand env.goos uid (scriptMainOf env script) args])] := by
  simp only [runScript, hpid, hpkg, hstat, hchmod]
  cases hr : env.runErr <;> simp [hr, apply_ite Prod.snd]

/-- Claim C7 counterexample: at a concrete request with pid `1234` and
namespaces {mount, network}, the chmod subprocess is launched with the
single argument `chmod 777 /tmp/42/main`; none of the composed namespace
flag tokens `-t`, `1234`, `-m`, `-n` occurs among its arguments, and the
character `1` (hence the pid) does not occur in that argument at all, so
the chmod invocation does not carry the composed namespace flags. -/
theorem chmod_ns_flags_counterexample :
    ((runScript mntNetCtx "/tmp/pkg.tar" "" "uid1" happyEnv).2)[2]? =
      some (Effect.exec "/opt/chaosblade/bin/nsexec" ["chmod 777 /tmp/42/main"]) ∧
    (["chmod 777 /tmp/42/main"].contains "-t") = false ∧
    (["chmod 777 /tmp/42/main"].contains "1234") = false ∧
    (["chmod 777 /tmp/42/main"].contains "-m") = false ∧
    (["chmod 777 /tmp/42/main"].contains "-n") = false ∧
    (splitCh (Char.ofNat 49) "chmod 777 /tmp/42/main".data).length = 1 := by
  decide

/-- Claim C7 amended: the privilege-normalization chmod is invoked through the
namespace-entry helper binary, but with the single argument
`chmod 777 <entry>` and without the composed namespace flags; any error
of that subprocess yields an `OsCmdExecFailed` failure carrying the
command description and the combined output with the error text
appended. -/
theorem chmod_via_helper_without_ns_flags
    (ctx : Ctx) (script args uid pid : String) (env : Env)
    (hpid : ctx.nsTarget = some pid)
    (hpkg : (env.isBladeCommand script && !env.isExist script) = false)
    (hstat : env.mainStatNotExist = false) :
    ((runScript ctx script args uid env).2)[2]? =
      some (Effect.exec env.nsExecBin ["chmod 777 " ++ scriptMainOf env script]) ∧
    (∀ e, env.chmodErr = some e →
      (runScript ctx script args uid env).1 =
        ResponseFailWithFlags RespCode.osCmdExecFailed
          [cmdDescription env.nsExecBin ["chmod 777 " ++ scriptMainOf env script],
           env.chmodOutput ++ " " ++ e]) := by
  refine ⟨runScript_chmod_effect ctx script args uid pid env hpid hpkg hstat, ?_⟩
  intro e hc
  simp [runScript, hpid, hpkg, hstat, hc]

/-- Witness for the amended C7 at a concrete failing chmod. -/
theorem chmod_via_helper_without_ns_flags_witness :
    mntNetCtx.nsTarget = some "1234" ∧
    chmodFailEnv.chmodErr = some "exit status 1" ∧
    (runScript mntNetCtx "/tmp/pkg.tar" "" "uid1" chmodFailEnv).1 =
      ResponseFailWithFlags RespCode.osCmdExecFailed
        [cmdDescription "/opt/chaosblade/bin/nsexec" ["chmod 777 /tmp/42/main"],
         "chmod: operation not permitted exit status 1"] :=
  ⟨rfl, rfl,
    (chmod_via_helper_without_ns_flags mntNetCtx "/tmp/pkg.tar" "" "uid1" "1234"
      chmodFailEnv rfl rfl rfl).2 "exit status 1" rfl⟩

/-- Claim C9: the return value of the extraction is discarded — the whole
result of `RunScript` is unchanged under any `UnTar` result, so an
extraction failure is never surfaced as its own error — and when the
staged `main` file is missing the result code is `FileNotExist`, the only
post-extraction validation. -/
theorem untar_result_discarded
    (ctx : Ctx) (script args uid pid : String) (env : Env) :
    (∀ r, runScript ctx script args uid { env with unTarResult := r } =
      runScript ctx script args uid env) ∧
    (ctx.nsTarget = some pid →
      (env.isBladeCommand script && !env.isExist script) = false →
      env.mainStatNotExist = true →
      (runScript ctx script args uid env).1.code = RespCode.fileNotExist) := by
  constructor
  · intro r
    rfl
  · intro hpid hpkg hstat
    simp [runScript, hpid, hpkg, hstat, ResponseFailWithFlags]

/-- Witness for C9: a concrete failed extraction (no `main` staged, tar
error reported) changes nothing, and the result is `FileNotExist`. -/
theorem untar_result_discarded_witness :
    runScript mntNetCtx "/tmp/pkg.tar" "" "uid1"
        { noMainEnv with unTarResult := some "unexpected EOF" } =
      runScript mntNetCtx "/tmp/pkg.tar" "" "uid1" noMainEnv ∧
    (runScript mntNetCtx "/tmp/pkg.tar" "" "uid1" noMainEnv).1.code =
      RespCode.fileNotExist :=
  ⟨(untar_result_discarded mntNetCtx "/tmp/pkg.tar" "" "uid1" "1234" noMainEnv).1
      (some "unexpected EOF"),
   (untar_result_discarded mntNetCtx "/tmp/pkg.tar" "" "uid1" "1234" noMainEnv).2
      rfl rfl rfl⟩

/-- Claim C10: any non-nil target-pid value is accepted for presence only: its
formatted string is embedded directly after `-t` in the namespace flag
sequence handed to the final subprocess, with no further validation
before that invocation — the trace ends with the helper-binary launch
whose arguments are the split flag sequence plus the wrapped command. -/
theorem pid_presence_only_validation
    (ctx : Ctx) (script args uid pid : String) (env : Env)
    (hpid : ctx.nsTarget = some pid)
    (hpkg : (env.isBladeCommand script && !env.isExist script) = false)
    (hstat : env.mainStatNotExist = false)
    (hchmod : env.chmodErr = none) :
    ((runScript ctx script args uid env).2)[3]? =
      some (Effect.exec env.nsExecBin
        (goSplitSpace (nsFlags pid ctx.nsPid ctx.nsMnt ctx.nsNet ++ " -- /bin/sh -c") ++
         [wrapCommand env.goos uid (scriptMainOf env script) args])) ∧
    (runScript ctx script args uid env).2.length = 4 := by
  rw [runScript_trace_reached ctx script args uid pid env hpid hpkg hstat hchmod]
  exact ⟨rfl, rfl⟩

/-- Witness for C10 at a concrete non-numeric pid value, accepted and
formatted directly after `-t`. -/
theorem pid_presence_only_validation_witness :
    ({ nsTarget := some "not-a-pid", nsPid := false, nsMnt := true, nsNet := true } : Ctx).nsTarget =
      some "not-a-pid" ∧
    ((runScript { nsTarget := some "not-a-pid", nsPid := false, nsMnt := true, nsNet := true }
        "/tmp/pkg.tar" "" "uid1" happyEnv).2)[3]? =
      some (Effect.exec "/opt/chaosblade/bin/nsexec"
        (["-t", "not-a-pid", "-m", "-n", "--", "/bin/sh", "-c"] ++
         ["script  -t 2>/tmp/uid1.time -a /tmp/uid1.out  -c  \"/tmp/42/main\""])) :=
  ⟨rfl, by
    have h := (pid_presence_only_validation
      { nsTarget := some "not-a-pid", nsPid := false, nsMnt := true, nsNet := true }
      "/tmp/pkg.tar" "" "uid1" "not-a-pid" happyEnv rfl rfl rfl rfl).1
    rw [h]
    decide⟩

end ChaosBlade
